import Mathlib

/-!
# Verification of the kineticode gesture-engine core

This file gives a shallow embedding, in Lean 4, of the gesture classification
and action-state-machine logic of the kineticode repository
(`copy_paste_engine.py`, `gesture_engine.py`, `push_engine.py`,
`posture_engine.py`, `unified_engine.py`) and proves or refutes the
testable properties stated in the repository's specification.

Modelling conventions:
* Landmark coordinates are rationals.  The Python code compares Euclidean
  distances (square roots of sums of squares) against scaled copies of other
  Euclidean distances; every such comparison `sqrt a ⋈ c * sqrt b` with
  `a, b ≥ 0`, `c ≥ 0` is equivalent to `a ⋈ c² * b`, so the embedding carries
  the squared distances and squares each threshold constant.  This keeps every
  definition computable and decidable over `ℚ`.
* Python's `max(0, n - 1)` on a nonnegative integer counter is `ℕ` truncated
  subtraction `n - 1`.
* Wall-clock times (`time.time()`) are passed to each per-frame step as an
  explicit rational argument.
* A video frame in which the landmark detector reports no hand skips the
  whole per-hand block, which the embedding models as a separate input
  constructor that leaves the gesture state unchanged.
-/

/-- A single landmark: normalized coordinates, as in the MediaPipe output
consumed by every engine. -/
structure Landmark where
  x : ℚ
  y : ℚ
  z : ℚ
deriving DecidableEq, Repr

/-- A hand landmark frame: 21 indexed keypoints. -/
def HandFrame : Type := Fin 21 → Landmark

/-- Squared 3D Euclidean distance.  The source's `get_distance` is the square
root of this quantity; all comparisons in the source are of the form
`get_distance … ⋈ c * get_distance …` or `get_distance … ⋈ c * hand_size`
with nonnegative `c`, so they are faithfully represented by comparing this
squared quantity against the squared constant. -/
def distSq (p q : Landmark) : ℚ :=
  (p.x - q.x) ^ 2 + (p.y - q.y) ^ 2 + (p.z - q.z) ^ 2

/-- Squared 2D Euclidean distance (the source drops `z` for the snap, undo and
eye-distance computations). -/
def distSq2 (p q : Landmark) : ℚ :=
  (p.x - q.x) ^ 2 + (p.y - q.y) ^ 2

theorem distSq_nonneg (p q : Landmark) : 0 ≤ distSq p q := by
  unfold distSq; positivity

theorem distSq2_nonneg (p q : Landmark) : 0 ≤ distSq2 p q := by
  unfold distSq2; positivity

/-- `get_hand_size` of `copy_paste_engine.py` / `unified_engine.py`
(wrist = landmark 0 to middle-finger MCP = landmark 9), squared. -/
def get_hand_size_sq (hl : HandFrame) : ℚ := distSq (hl 0) (hl 9)

/-- The four (MCP, TIP) landmark index pairs used by `is_fist` and `is_open`
(index, middle, ring, pinky). -/
def fingerPairs : List (Fin 21 × Fin 21) := [(5, 8), (9, 12), (13, 16), (17, 20)]

/-- `is_fist` of `copy_paste_engine.py` (lines 72–99) and `unified_engine.py`
(lines 153–166): with a zero hand size the classifier reports no gesture;
otherwise every finger must have its tip tucked relative to its MCP
(`dist_tip ≤ dist_mcp * 1.1`, squared: `121/100`) and close to the wrist
(`dist_tip ≤ hand_size * 1.8`, squared: `81/25`). -/
def is_fist (hl : HandFrame) : Bool :=
  let hand_size := get_hand_size_sq hl
  if hand_size = 0 then false
  else
    fingerPairs.all fun pr =>
      let dist_mcp := distSq (hl 0) (hl pr.1)
      let dist_tip := distSq (hl 0) (hl pr.2)
      decide (dist_tip ≤ dist_mcp * (121 / 100)) &&
        decide (dist_tip ≤ hand_size * (81 / 25))

/-- `is_open` of `copy_paste_engine.py` (lines 101–128) and
`unified_engine.py` (lines 168–182): with a zero hand size the classifier
reports no gesture; otherwise at least 3 of the 4 non-thumb fingers must be
extended past the MCP (`dist_tip > dist_mcp * 1.15`, squared: `529/400`) and
far from the wrist (`dist_tip > hand_size * 1.4`, squared: `49/25`). -/
def is_open (hl : HandFrame) : Bool :=
  let hand_size := get_hand_size_sq hl
  if hand_size = 0 then false
  else
    decide (3 ≤ fingerPairs.countP fun pr =>
      let dist_mcp := distSq (hl 0) (hl pr.1)
      let dist_tip := distSq (hl 0) (hl pr.2)
      decide (dist_mcp * (529 / 400) < dist_tip) &&
        decide (hand_size * (49 / 25) < dist_tip))

/-- A wholly degenerate hand frame: all 21 landmarks coincide, so the hand
size is zero. -/
def degenerateFrame : HandFrame := fun _ => ⟨0, 0, 0⟩

/-- A hand frame with a unit-size palm: landmark 9 at `(1,0,0)`, every other
landmark at the origin.  Used only as a concrete sample input. -/
def unitPalmFrame : HandFrame := fun i => if i = (9 : Fin 21) then ⟨1, 0, 0⟩ else ⟨0, 0, 0⟩

theorem C2_helper (dm dt sz : ℚ) (hdm : 0 ≤ dm)
    (h1 : dt ≤ dm * (121 / 100)) :
    ¬(dm * (529 / 400) < dt ∧ sz * (49 / 25) < dt) := by
  rintro ⟨h2, -⟩
  nlinarith

/-- **C2** (confirmed).  For every hand landmark frame whose hand size
(wrist-to-middle-MCP distance) is strictly positive, the Fist predicate and
the Open-hand predicate are never both true on the same frame. -/
theorem C2_fist_open_exclusive (hl : HandFrame)
    (hpos : 0 < get_hand_size_sq hl) :
    ¬(is_fist hl = true ∧ is_open hl = true) := by
  rintro ⟨hf, ho⟩
  have hsz : get_hand_size_sq hl ≠ 0 := ne_of_gt hpos
  unfold is_fist at hf
  unfold is_open at ho
  simp only [hsz, if_false, if_neg hsz] at hf ho
  rw [List.all_eq_true] at hf
  have hcount : (fingerPairs.countP fun pr =>
      decide (distSq (hl 0) (hl pr.1) * (529 / 400) < distSq (hl 0) (hl pr.2)) &&
        decide (get_hand_size_sq hl * (49 / 25) < distSq (hl 0) (hl pr.2))) = 0 := by
    rw [List.countP_eq_zero]
    intro pr hpr
    have hf1 := hf pr hpr
    simp only [Bool.and_eq_true, decide_eq_true_eq] at hf1
    simp only [Bool.and_eq_true, decide_eq_true_eq]
    intro hcontra
    exact C2_helper _ _ (get_hand_size_sq hl) (distSq_nonneg _ _) hf1.1 ⟨hcontra.1, hcontra.2⟩
  simp only [decide_eq_true_eq] at ho
  omega

theorem unitPalm_size : get_hand_size_sq unitPalmFrame = 1 := by
  have h0 : ¬((0 : Fin 21) = 9) := by decide
  have h9 : ((9 : Fin 21) = 9) := rfl
  norm_num [get_hand_size_sq, distSq, unitPalmFrame, h0, h9]

/-- Witness for C2: the unit-palm frame has positive hand size and is not
simultaneously a fist and an open hand. -/
theorem C2_witness :
    0 < get_hand_size_sq unitPalmFrame ∧
      ¬(is_fist unitPalmFrame = true ∧ is_open unitPalmFrame = true) :=
  ⟨by rw [unitPalm_size]; norm_num,
    C2_fist_open_exclusive unitPalmFrame (by rw [unitPalm_size]; norm_num)⟩

/-- **C7** (confirmed).  On a frame whose hand size is exactly zero, both
`is_fist` and `is_open` return `False`.  Both functions test
`hand_size == 0` before any ratio is formed (the source compares distances
against multiples of `hand_size` and performs no division at all), so the
zero-scale frame short-circuits to "no gesture" without any exception. -/
theorem C7_zero_hand_size (hl : HandFrame) (h : get_hand_size_sq hl = 0) :
    is_fist hl = false ∧ is_open hl = false := by
  unfold is_fist is_open
  simp [h]

/-- Witness for C7: the degenerate frame has hand size zero and both
classifiers report no gesture on it. -/
theorem degenerate_size : get_hand_size_sq degenerateFrame = 0 := by
  norm_num [get_hand_size_sq, distSq, degenerateFrame]

theorem C7_witness :
    get_hand_size_sq degenerateFrame = 0 ∧
      (is_fist degenerateFrame = false ∧ is_open degenerateFrame = false) :=
  ⟨degenerate_size, C7_zero_hand_size degenerateFrame degenerate_size⟩

/-!
## The copy/paste state machine

Embedding of the globals and the per-frame debounce/action logic of
`copy_paste_engine.py` (`read_stdin` lines 41–63, `main` lines 173–288); the
copy/paste block of `unified_engine.py` (lines 129–145, 301–307, 407–450) is
byte-for-byte the same logic.
-/

/-- The three values of the `current_state` global. -/
inductive CPState
  | idle
  | awaitingCopy
  | awaitingPaste
deriving DecidableEq, Repr

/-- Per-frame hand classification: the source evaluates `is_fist` and
`is_open` on the detected hand; by `C2_fist_open_exclusive` they cannot both
hold, so a frame carrying a hand is a fist frame, an open frame, or neither.
(`is_fist` is tested first in the `if`/`elif` chain, so even on a frame where
both returned true the fist branch would run; the three-way classification is
exactly the branch taken.) -/
inductive HandObs
  | fist
  | openHand
  | neither
deriving DecidableEq, Repr

/-- The action records the copy/paste machine can print. -/
inductive CPAction
  | copy
  | paste
deriving DecidableEq, Repr

/-- `REQUIRED_FRAMES = 3` (`copy_paste_engine.py` line 181). -/
def REQUIRED_FRAMES : ℕ := 3

/-- `action_cooldown = 1.5` (`copy_paste_engine.py` line 175). -/
def action_cooldown : ℚ := 3 / 2

/-- The mutable state carried across frames by `main` (plus the
`current_state` global). -/
structure CPMachine where
  state : CPState
  fist_frames : ℕ
  open_frames : ℕ
  was_fist_previously : Bool
  last_action_time : ℚ
deriving DecidableEq, Repr

/-- Initial state at program start: `current_state = IDLE`,
`fist_frames = open_frames = 0`, `was_fist_previously = False`,
`last_action_time = 0`. -/
def cpInit : CPMachine :=
  { state := .idle, fist_frames := 0, open_frames := 0
    was_fist_previously := false, last_action_time := 0 }

/-- The fist-counter update of lines 251–259: `fist_frames += 1` on a fist
frame, `fist_frames = max(0, fist_frames - 1)` otherwise (`ℕ` subtraction
truncates at 0, exactly `max(0, · - 1)`). -/
def updFist (f : ℕ) (obs : HandObs) : ℕ :=
  match obs with
  | .fist => f + 1
  | _ => f - 1

/-- The open-counter update of lines 251–259. -/
def updOpen (o : ℕ) (obs : HandObs) : ℕ :=
  match obs with
  | .openHand => o + 1
  | _ => o - 1

/-- One frame of the main loop in which a hand was detected
(lines 247–288): update the debounce counters, then, if the action cooldown
has elapsed, run the state-machine block, possibly emitting a `copy` or
`paste` action record. -/
def cpFrameStep (s : CPMachine) (obs : HandObs) (t : ℚ) :
    CPMachine × Option (CPAction × ℚ) :=
  let f := updFist s.fist_frames obs
  let o := updOpen s.open_frames obs
  let is_stable_fist := REQUIRED_FRAMES ≤ f
  let is_stable_open := REQUIRED_FRAMES ≤ o
  if action_cooldown < t - s.last_action_time then
    match s.state with
    | .awaitingCopy =>
      if is_stable_fist then
        ({ state := .awaitingPaste, fist_frames := f, open_frames := o
           was_fist_previously := false, last_action_time := t }, some (.copy, t))
      else
        ({ s with fist_frames := f, open_frames := o }, none)
    | .awaitingPaste =>
      let wf := s.was_fist_previously || is_stable_fist
      if wf && is_stable_open then
        ({ state := .idle, fist_frames := f, open_frames := o
           was_fist_previously := false, last_action_time := t }, some (.paste, t))
      else
        ({ s with fist_frames := f, open_frames := o, was_fist_previously := wf }, none)
    | .idle =>
      ({ s with fist_frames := f, open_frames := o }, none)
  else
    ({ s with fist_frames := f, open_frames := o }, none)

/-- The `selection_changed` handler of `read_stdin` (lines 50–61): any
`hasSelection = true` event forces `AWAITING_COPY`; a `hasSelection = false`
event moves `AWAITING_COPY` back to `IDLE` and is ignored in every other
state.  Only the `current_state` global is touched. -/
def cpEventStep (s : CPMachine) (hasSelection : Bool) : CPMachine :=
  if hasSelection then { s with state := .awaitingCopy }
  else if s.state = .awaitingCopy then { s with state := .idle }
  else s

/-- One inbound item for the copy/paste machine: a video frame with a
detected hand (classified, with its wall-clock time), a video frame with no
detected hand (the whole gesture block is skipped), or an inbound
`selection_changed` record. -/
inductive CPInput
  | frame (obs : HandObs) (t : ℚ)
  | noHand (t : ℚ)
  | selection (hasSelection : Bool)
deriving DecidableEq, Repr

/-- One tick of the combined machine. -/
def cpStep (s : CPMachine) (i : CPInput) : CPMachine × Option (CPAction × ℚ) :=
  match i with
  | .frame obs t => cpFrameStep s obs t
  | .noHand _ => (s, none)
  | .selection b => (cpEventStep s b, none)

/-- Run the machine over an input list, collecting the emitted action records
in order with their emission times. -/
def cpRun (s : CPMachine) : List CPInput → CPMachine × List (CPAction × ℚ)
  | [] => (s, [])
  | i :: rest =>
    let p := cpStep s i
    let r := cpRun p.1 rest
    (r.1, p.2.toList ++ r.2)

/-- The machine state reached from `cpInit` just before processing input
number `k` of `l`. -/
def cpStateAt (l : List CPInput) (k : ℕ) : CPMachine :=
  (l.take k).foldl (fun s i => (cpStep s i).1) cpInit

/-- The record (if any) emitted while processing input number `k` of `l`,
starting from `cpInit`. -/
def cpEmitAt (l : List CPInput) (k : ℕ) : Option (CPAction × ℚ) :=
  match l[k]? with
  | some i => (cpStep (cpStateAt l k) i).2
  | none => none

/-- "A stable fist is observed at step `k`": input `k` is a frame with a
detected hand, the machine is in `AWAITING_PASTE` when it is processed, and
the fist counter after that frame's update reaches `REQUIRED_FRAMES`.  (This
is deliberately generous: it does not require the action cooldown to have
elapsed, although the source only records the fist into
`was_fist_previously` when it has.) -/
def fistObsAt (l : List CPInput) (k : ℕ) : Bool :=
  match l[k]? with
  | some (.frame obs _) =>
    decide ((cpStateAt l k).state = .awaitingPaste) &&
      decide (REQUIRED_FRAMES ≤ updFist (cpStateAt l k).fist_frames obs)
  | _ => false

/-- The counters are updated identically in every branch of the frame step
(the counter update precedes, and is independent of, the cooldown guard and
the state-machine block). -/
theorem cpFrameStep_counters (s : CPMachine) (obs : HandObs) (t : ℚ) :
    (cpFrameStep s obs t).1.fist_frames = updFist s.fist_frames obs ∧
      (cpFrameStep s obs t).1.open_frames = updOpen s.open_frames obs := by
  obtain ⟨st, ff, of, wf, lat⟩ := s
  cases st <;> simp only [cpFrameStep] <;> split_ifs <;> simp

theorem cpStep_fist (s : CPMachine) (i : CPInput) :
    (cpStep s i).1.fist_frames =
      match i with
      | .frame obs _ => updFist s.fist_frames obs
      | _ => s.fist_frames := by
  cases i with
  | frame obs t => exact (cpFrameStep_counters s obs t).1
  | noHand t => rfl
  | selection b => simp [cpStep, cpEventStep]; split_ifs <;> rfl

theorem cpRun_fist_le (l : List CPInput) (s : CPMachine) :
    (cpRun s l).1.fist_frames ≤ s.fist_frames + l.length := by
  induction l generalizing s with
  | nil => simp [cpRun]
  | cons i rest ih =>
    have hstep : (cpStep s i).1.fist_frames ≤ s.fist_frames + 1 := by
      cases i with
      | frame obs t =>
        rw [show (cpStep s (.frame obs t)).1 = (cpFrameStep s obs t).1 from rfl,
          (cpFrameStep_counters s obs t).1]
        cases obs <;> simp [updFist] <;> omega
      | noHand t => simp [cpStep]
      | selection b =>
        have heq : (cpEventStep s b).fist_frames = s.fist_frames := by
          unfold cpEventStep; split_ifs <;> rfl
        simp [cpStep, heq]
    calc (cpRun s (i :: rest)).1.fist_frames
        = (cpRun (cpStep s i).1 rest).1.fist_frames := by simp [cpRun]
      _ ≤ (cpStep s i).1.fist_frames + rest.length := ih _
      _ ≤ s.fist_frames + (i :: rest).length := by simp [List.length_cons]; omega

/-- Counterexample to **C1** as stated.  (a) The counters have no upper cap:
from the initial state, four consecutive fist frames drive `fist_frames` to
4, strictly above `REQUIRED_FRAMES = 3`, leaving the claimed interval
`[0, REQUIRED_FRAMES]`.  (b) The threshold is also reachable without
`REQUIRED_FRAMES` *consecutive* matching frames: the sequence
fist, fist, neither, fist, fist reaches `fist_frames = 3` although no three
consecutive frames match. -/
theorem C1_counterexample :
    ((cpRun cpInit
        [.frame .fist 2, .frame .fist 3, .frame .fist 4, .frame .fist 5]).1.fist_frames
          = 4 ∧ ¬(4 ≤ REQUIRED_FRAMES)) ∧
    (cpRun cpInit
        [.frame .fist 2, .frame .fist 3, .frame .neither 4, .frame .fist 5,
          .frame .fist 6]).1.fist_frames = REQUIRED_FRAMES := by
  norm_num [cpRun, cpStep, cpFrameStep, cpEventStep, cpInit, updFist, updOpen,
    REQUIRED_FRAMES, action_cooldown]

/-- **C1** (amended).  Each per-gesture debounce counter is a natural number
with no upper cap: it is incremented by exactly 1 on a frame matching its
gesture and decremented by 1, truncated at 0 (never reset), on a
non-matching frame; starting from 0 the counter after `k` frames is at most
`k`, so it cannot reach the stable threshold before `REQUIRED_FRAMES`
frames, and `REQUIRED_FRAMES` consecutive matching frames do reach it. -/
theorem C1_amended :
    (∀ (s : CPMachine) (obs : HandObs) (t : ℚ),
        (cpFrameStep s obs t).1.fist_frames = updFist s.fist_frames obs ∧
        (cpFrameStep s obs t).1.open_frames = updOpen s.open_frames obs) ∧
    (∀ f : ℕ, updFist f .fist = f + 1 ∧ updFist f .openHand = f - 1 ∧
        updFist f .neither = f - 1) ∧
    (∀ o : ℕ, updOpen o .openHand = o + 1 ∧ updOpen o .fist = o - 1 ∧
        updOpen o .neither = o - 1) ∧
    (∀ (l : List CPInput) (s : CPMachine), s.fist_frames = 0 →
        (cpRun s l).1.fist_frames ≤ l.length) ∧
    (∀ (s : CPMachine) (t1 t2 t3 : ℚ), s.fist_frames = 0 →
        (cpRun s [.frame .fist t1, .frame .fist t2, .frame .fist t3]).1.fist_frames
          = REQUIRED_FRAMES) := by
  refine ⟨cpFrameStep_counters, ?_, ?_, ?_, ?_⟩
  · intro f; exact ⟨rfl, rfl, rfl⟩
  · intro o; exact ⟨rfl, rfl, rfl⟩
  · intro l s h
    have := cpRun_fist_le l s
    omega
  · intro s t1 t2 t3 h
    have e1 := cpStep_fist s (.frame .fist t1)
    have e2 := cpStep_fist (cpStep s (.frame .fist t1)).1 (.frame .fist t2)
    have e3 := cpStep_fist
      (cpStep (cpStep s (.frame .fist t1)).1 (.frame .fist t2)).1 (.frame .fist t3)
    simp only [cpRun]
    simp only [updFist] at e1 e2 e3
    rw [e3, e2, e1, h]
    rfl

/-- Witness for the amended C1: from the initial state (counter 0), three
consecutive fist frames reach exactly the stable threshold. -/
theorem C1_witness :
    (cpRun cpInit [.frame .fist 2, .frame .fist 3, .frame .fist 4]).1.fist_frames
      = REQUIRED_FRAMES :=
  C1_amended.2.2.2.2 cpInit 2 3 4 rfl

/-- **C10** (confirmed).  A `selection_changed` event with
`hasSelection = true` moves the machine to `AWAITING_COPY` from every state
(including `AWAITING_PASTE`, cancelling a pending paste and re-arming the
copy flow); `hasSelection = false` only moves `AWAITING_COPY` back to `IDLE`
and leaves every other state unchanged; events never emit any record. -/
theorem C10_selection_events :
    (∀ s : CPMachine, (cpEventStep s true).state = .awaitingCopy) ∧
    (∀ s : CPMachine, cpEventStep s false =
        if s.state = .awaitingCopy then { s with state := .idle } else s) ∧
    (∀ (s : CPMachine) (b : Bool), (cpStep s (.selection b)).2 = none) := by
  refine ⟨?_, ?_, ?_⟩
  · intro s; rfl
  · intro s; simp [cpEventStep]
  · intro s b; rfl

/-- **C3** (confirmed).  After a `selection_changed(true)` event (state
`AWAITING_COPY`), a run of `REQUIRED_FRAMES = 3` consecutive fist frames,
each with the action cooldown elapsed, emits exactly one copy record (on the
third frame) and moves the state to `AWAITING_PASTE`; if instead a
`selection_changed(false)` event arrives while the state is still
`AWAITING_COPY` (here after only two fist frames), the state returns to
`IDLE` and nothing is emitted. -/
theorem C3_copy_flow (t1 t2 t3 : ℚ)
    (h1 : action_cooldown < t1) (h2 : action_cooldown < t2)
    (h3 : action_cooldown < t3) :
    cpRun cpInit [.selection true, .frame .fist t1, .frame .fist t2, .frame .fist t3]
      = ({ state := .awaitingPaste, fist_frames := 3, open_frames := 0
           was_fist_previously := false, last_action_time := t3 },
          [(.copy, t3)]) ∧
    cpRun cpInit [.selection true, .frame .fist t1, .frame .fist t2, .selection false]
      = ({ state := .idle, fist_frames := 2, open_frames := 0
           was_fist_previously := false, last_action_time := 0 }, []) := by
  have h1x : action_cooldown < t1 - (0 : ℚ) := by rw [sub_zero]; exact h1
  have h2x : action_cooldown < t2 - (0 : ℚ) := by rw [sub_zero]; exact h2
  have h3x : action_cooldown < t3 - (0 : ℚ) := by rw [sub_zero]; exact h3
  constructor <;>
    norm_num [cpRun, cpStep, cpFrameStep, cpEventStep, cpInit, updFist, updOpen,
      REQUIRED_FRAMES, sub_zero, h1x, h2x, h3x, h1, h2, h3]

/-- Witness for C3 at concrete times 2, 3, 4 (cooldown 1.5 elapsed). -/
theorem C3_witness :
    cpRun cpInit [.selection true, .frame .fist 2, .frame .fist 3, .frame .fist 4]
      = ({ state := .awaitingPaste, fist_frames := 3, open_frames := 0
           was_fist_previously := false, last_action_time := 4 },
          [(.copy, 4)]) ∧
    cpRun cpInit [.selection true, .frame .fist 2, .frame .fist 3, .selection false]
      = ({ state := .idle, fist_frames := 2, open_frames := 0
           was_fist_previously := false, last_action_time := 0 }, []) :=
  C3_copy_flow 2 3 4 (by norm_num [action_cooldown]) (by norm_num [action_cooldown])
    (by norm_num [action_cooldown])

/-- If a frame step emits a paste record, the machine was in
`AWAITING_PASTE` and either the fist memory was already set or the fist
counter reached the threshold on that very frame. -/
theorem cpFrameStep_paste (s : CPMachine) (obs : HandObs) (t u : ℚ)
    (h : (cpFrameStep s obs t).2 = some (.paste, u)) :
    s.state = .awaitingPaste ∧ t = u ∧
      (s.was_fist_previously = true ∨
        REQUIRED_FRAMES ≤ updFist s.fist_frames obs) := by
  rcases s with ⟨st, ff, of, wf, lat⟩
  cases st <;> simp only [cpFrameStep] at h <;> split_ifs at h <;>
    simp_all [Bool.or_eq_true, decide_eq_true_eq]

/-- The fist memory can only be turned on in the `AWAITING_PASTE` state by a
frame whose updated fist counter reaches the threshold. -/
theorem cpStep_wasFist (s : CPMachine) (i : CPInput)
    (h : (cpStep s i).1.was_fist_previously = true) :
    s.was_fist_previously = true ∨
      (∃ obs t, i = .frame obs t ∧ s.state = .awaitingPaste ∧
        REQUIRED_FRAMES ≤ updFist s.fist_frames obs) := by
  cases i with
  | noHand t => exact Or.inl h
  | selection b =>
    left
    have heq : (cpEventStep s b).was_fist_previously = s.was_fist_previously := by
      unfold cpEventStep; split_ifs <;> rfl
    rw [show (cpStep s (.selection b)).1 = cpEventStep s b from rfl, heq] at h
    exact h
  | frame obs t =>
    rcases s with ⟨st, ff, of, wf, lat⟩
    cases st with
    | idle =>
      simp only [cpStep, cpFrameStep] at h
      split_ifs at h <;> exact Or.inl h
    | awaitingCopy =>
      simp only [cpStep, cpFrameStep] at h
      split_ifs at h
      · exact Or.inl h
      · exact Or.inl h
    | awaitingPaste =>
      simp only [cpStep, cpFrameStep] at h
      split_ifs at h
      · have h2 : wf = true ∨ REQUIRED_FRAMES ≤ updFist ff obs := by simpa using h
        rcases h2 with h1 | h1
        · exact Or.inl h1
        · exact Or.inr ⟨obs, t, rfl, rfl, h1⟩
      · exact Or.inl h

theorem cpStateAt_zero (l : List CPInput) : cpStateAt l 0 = cpInit := rfl

theorem cpStateAt_succ (l : List CPInput) (k : ℕ) (h : k < l.length) :
    cpStateAt l (k + 1) = (cpStep (cpStateAt l k) l[k]).1 := by
  unfold cpStateAt
  rw [List.take_succ, List.foldl_append, List.getElem?_eq_getElem h]
  rfl

theorem cpStateAt_past (l : List CPInput) (k : ℕ) (h : l.length ≤ k) :
    cpStateAt l (k + 1) = cpStateAt l k := by
  unfold cpStateAt
  rw [List.take_of_length_le h, List.take_of_length_le (le_trans h (Nat.le_succ k))]

/-- History invariant: whenever the fist memory is set, a stable fist was
observed (in `AWAITING_PASTE`) at some strictly earlier step. -/
theorem wasFist_history (l : List CPInput) (k : ℕ)
    (h : (cpStateAt l k).was_fist_previously = true) :
    ∃ j, j < k ∧ fistObsAt l j = true := by
  induction k with
  | zero => rw [cpStateAt_zero] at h; exact absurd h (by simp [cpInit])
  | succ k ih =>
    by_cases hk : k < l.length
    · rw [cpStateAt_succ l k hk] at h
      rcases cpStep_wasFist _ _ h with hold | ⟨obs, t, hi, hst, hbd⟩
      · obtain ⟨j, hj, hobs⟩ := ih hold
        exact ⟨j, Nat.lt_succ_of_lt hj, hobs⟩
      · refine ⟨k, Nat.lt_succ_self k, ?_⟩
        unfold fistObsAt
        rw [List.getElem?_eq_getElem hk, hi]
        simp [hst, hbd]
    · rw [cpStateAt_past l k (le_of_not_lt hk)] at h
      obtain ⟨j, hj, hobs⟩ := ih h
      exact ⟨j, Nat.lt_succ_of_lt hj, hobs⟩

/-- The inbound trace that refutes C4 as literally stated: a selection, a
completed copy (three fist frames), six open frames while the action
cooldown is still running (draining the fist counter to 0 and raising the
open counter to 6), then three fist frames after the cooldown.  On the last
frame both counters are ≥ `REQUIRED_FRAMES`: the stable fist is recorded and
the paste fires on that same frame, with no strictly earlier stable-fist
frame in `AWAITING_PASTE`. -/
def c4Trace : List CPInput :=
  [.selection true,
    .frame .fist 2, .frame .fist (21 / 10), .frame .fist (22 / 10),
    .frame .openHand (23 / 10), .frame .openHand (24 / 10),
    .frame .openHand (25 / 10), .frame .openHand (26 / 10),
    .frame .openHand (27 / 10), .frame .openHand (28 / 10),
    .frame .fist 4, .frame .fist (41 / 10), .frame .fist (42 / 10)]

/-- Counterexample to **C4** as stated: on `c4Trace` the machine emits a
paste record at step 12, yet at no step `j < 12` was a stable fist observed
while in `AWAITING_PASTE` — the stable fist and the stable open hand occur
on the same frame, not strictly before. -/
theorem C4_counterexample :
    cpEmitAt c4Trace 12 = some (.paste, 21 / 5) ∧
      ∀ j, j < 12 → fistObsAt c4Trace j = false := by
  constructor
  · norm_num [cpEmitAt, c4Trace, cpStateAt, cpStep, cpFrameStep, cpEventStep,
      cpInit, updFist, updOpen, REQUIRED_FRAMES, action_cooldown, List.take]
  · intro j hj
    interval_cases j <;>
      norm_num [fistObsAt, c4Trace, cpStateAt, cpStep, cpFrameStep, cpEventStep,
        cpInit, updFist, updOpen, REQUIRED_FRAMES, action_cooldown, List.take] <;>
      decide

/-- **C4** (amended).  A paste record is emitted at step `k` only if a
stable fist was observed, while the machine was in `AWAITING_PASTE`, at some
step `j ≤ k` — at or before the stable-open frame; the same frame may supply
both, because the source updates `was_fist_previously` before testing the
paste condition.  A stable open hand reached in `AWAITING_PASTE` with no
such fist emits nothing, and a non-emitting frame in `AWAITING_PASTE`
leaves the state unchanged. -/
theorem C4_amended :
    (∀ (l : List CPInput) (k : ℕ) (t : ℚ),
        cpEmitAt l k = some (.paste, t) →
        ∃ j, j ≤ k ∧ fistObsAt l j = true) ∧
    (∀ (s : CPMachine) (obs : HandObs) (t : ℚ),
        s.state = .awaitingPaste → (cpFrameStep s obs t).2 = none →
        (cpFrameStep s obs t).1.state = .awaitingPaste) := by
  constructor
  · intro l k t h
    unfold cpEmitAt at h
    rcases hk : l[k]? with - | i
    · rw [hk] at h; exact absurd h (by simp)
    · rw [hk] at h
      cases i with
      | noHand u => exact absurd h (by simp [cpStep])
      | selection b => exact absurd h (by simp [cpStep])
      | frame obs u =>
        obtain ⟨hst, -, hca⟩ := cpFrameStep_paste (cpStateAt l k) obs u t h
        rcases hca with hwf | hbd
        · obtain ⟨j, hj, hobs⟩ := wasFist_history l k hwf
          exact ⟨j, le_of_lt hj, hobs⟩
        · refine ⟨k, le_refl k, ?_⟩
          unfold fistObsAt
          rw [hk]
          simp [hst, hbd]
  · intro s obs t hst h
    rcases s with ⟨st, ff, of, wf, lat⟩
    simp only at hst
    subst hst
    simp only [cpFrameStep] at h ⊢
    split_ifs at h ⊢ <;> simp_all

/-- Witness for the amended C4: on `c4Trace` the paste emission at step 12
does have a stable-fist observation at some step `j ≤ 12`. -/
theorem C4_witness :
    cpEmitAt c4Trace 12 = some (.paste, 21 / 5) ∧
      ∃ j, j ≤ 12 ∧ fistObsAt c4Trace j = true := by
  have h : cpEmitAt c4Trace 12 = some (.paste, 21 / 5) := by
    norm_num [cpEmitAt, c4Trace, cpStateAt, cpStep, cpFrameStep, cpEventStep,
      cpInit, updFist, updOpen, REQUIRED_FRAMES, action_cooldown, List.take]
  exact ⟨h, C4_amended.1 c4Trace 12 (21 / 5) h⟩

/-!
## The zone/snap machine of `gesture_engine.py`

Embedding of the per-frame zone-swipe and snap logic of `gesture_engine.py`
(`main`, lines 78–226), with the default configuration (`COOLDOWN = 0.35`,
`AUTO_REPEAT_DELAY = 0.4`, `SNAP_THRESHOLD = 0.05`, `SNAP_COOLDOWN = 1.0`).
The pinch comparisons `dist < SNAP_THRESHOLD` and
`dist > SNAP_THRESHOLD * 2` are carried on squared distances
(`distSq2 < SNAP_THRESHOLD²` and `distSq2 > 4 * SNAP_THRESHOLD²`).
-/

namespace GestureEngine

/-- `COOLDOWN = 0.35` (`gesture_engine.py` line 15): the per-action cooldown
declared in the configuration block.  Note that the zone-trigger logic in
`main` never consults it. -/
def COOLDOWN : ℚ := 7 / 20

/-- `AUTO_REPEAT_DELAY = 0.4` (line 16). -/
def AUTO_REPEAT_DELAY : ℚ := 2 / 5

/-- `SNAP_THRESHOLD = 0.05` squared (line 18, default also at line 63). -/
def SNAP_THRESHOLD_SQ : ℚ := 1 / 400

/-- `SNAP_COOLDOWN = 1.0` (line 19). -/
def SNAP_COOLDOWN : ℚ := 1

/-- `NEUTRAL_ZONE = (0.35, 0.65)`, `LEFT_ZONE = 0.3`, `RIGHT_ZONE = 0.7`
(lines 82–84). -/
def NEUTRAL_LO : ℚ := 7 / 20

def NEUTRAL_HI : ℚ := 13 / 20

def LEFT_ZONE : ℚ := 3 / 10

def RIGHT_ZONE : ℚ := 7 / 10

/-- `EMA_ALPHA = 0.3` (line 92). -/
def EMA_ALPHA : ℚ := 3 / 10

/-- `LOST_FRAME_LIMIT = 5` (line 96). -/
def LOST_FRAME_LIMIT : ℕ := 5

/-- The gesture records `trigger_action` can print in this engine. -/
inductive ZoneEmit
  | swipeLeft
  | swipeRight
  | snap
deriving DecidableEq, Repr

/-- The per-session mutable state of `main` (lines 79–97). -/
structure ZoneMachine where
  can_trigger : Bool
  last_event_time : ℚ
  snap_prepared : Bool
  last_snap_time : ℚ
  smoothed : Option (ℚ × ℚ)
  neutral_y : Option ℚ
  hand_presence_start : Option ℚ
  hand_lost_frames : ℕ
deriving DecidableEq, Repr

/-- Initial state (lines 79–97): `can_trigger = True`,
`last_event_time = 0`, `snap_prepared = False`, `last_snap_time = 0`, the
smoothed coordinates, neutral height and presence timestamp unset. -/
def zoneStart : ZoneMachine :=
  { can_trigger := true, last_event_time := 0, snap_prepared := false
    last_snap_time := 0, smoothed := none, neutral_y := none
    hand_presence_start := none, hand_lost_frames := 0 }

/-- The zone block (lines 155–191): from the smoothed x-coordinate decide
neutral / left / right and fire/auto-repeat swipes.  Returns the updated
`(can_trigger, last_event_time, neutral_y)` and the swipe emissions. -/
def zonePart (can_trigger : Bool) (last_event_time : ℚ) (ny sx sy t : ℚ) :
    Bool × ℚ × ℚ × List (ZoneEmit × ℚ) :=
  if NEUTRAL_LO < sx ∧ sx < NEUTRAL_HI then
    (true, last_event_time, sy, [])
  else if sx < LEFT_ZONE then
    if can_trigger then (false, t, ny, [(.swipeLeft, t)])
    else if AUTO_REPEAT_DELAY < t - last_event_time then
      (can_trigger, t, ny, [(.swipeLeft, t)])
    else (can_trigger, last_event_time, ny, [])
  else if RIGHT_ZONE < sx then
    if can_trigger then (false, t, ny, [(.swipeRight, t)])
    else if AUTO_REPEAT_DELAY < t - last_event_time then
      (can_trigger, t, ny, [(.swipeRight, t)])
    else (can_trigger, last_event_time, ny, [])
  else (can_trigger, last_event_time, ny, [])

/-- The snap block (lines 193–211): pinch (squared distance below the
squared threshold) arms `snap_prepared`; a release beyond twice the
threshold while armed fires a snap if its own cooldown has elapsed, and
disarms in either case.  Returns `(snap_prepared, last_snap_time)` and the
snap emissions. -/
def snapPart (snap_prepared : Bool) (last_snap_time : ℚ) (d2 t : ℚ) :
    Bool × ℚ × List (ZoneEmit × ℚ) :=
  if d2 < SNAP_THRESHOLD_SQ then
    (true, last_snap_time, [])
  else if snap_prepared ∧ SNAP_THRESHOLD_SQ * 4 < d2 then
    if SNAP_COOLDOWN < t - last_snap_time then (false, t, [(.snap, t)])
    else (false, last_snap_time, [])
  else (snap_prepared, last_snap_time, [])

/-- One frame of `main` in which a hand was detected (lines 127–218):
palm-centre EMA smoothing over landmarks 0, 5, 17, the zone block, then the
snap block over the squared thumb-tip (4) / middle-tip (12) distance. -/
def zoneFrameStep (s : ZoneMachine) (hl : HandFrame) (t : ℚ) :
    ZoneMachine × List (ZoneEmit × ℚ) :=
  let hps := s.hand_presence_start.getD t
  let px := ((hl 0).x + (hl 5).x + (hl 17).x) / 3
  let py := ((hl 0).y + (hl 5).y + (hl 17).y) / 3
  let sx := match s.smoothed with
    | none => px
    | some q => EMA_ALPHA * px + (1 - EMA_ALPHA) * q.1
  let sy := match s.smoothed with
    | none => py
    | some q => EMA_ALPHA * py + (1 - EMA_ALPHA) * q.2
  let ny := s.neutral_y.getD sy
  let z := zonePart s.can_trigger s.last_event_time ny sx sy t
  let sn := snapPart s.snap_prepared s.last_snap_time (distSq2 (hl 4) (hl 12)) t
  ({ can_trigger := z.1, last_event_time := z.2.1
     snap_prepared := sn.1, last_snap_time := sn.2.1
     smoothed := some (sx, sy), neutral_y := some z.2.2.1
     hand_presence_start := some hps, hand_lost_frames := 0 },
    z.2.2.2 ++ sn.2.2)

/-- A frame with no detected hand (lines 219–226): the lost-frame counter
increments and, past `LOST_FRAME_LIMIT`, the smoothing, neutral-height and
presence state reset and triggering re-arms. -/
def zoneNoHand (s : ZoneMachine) : ZoneMachine :=
  let lf := s.hand_lost_frames + 1
  if LOST_FRAME_LIMIT < lf then
    { s with hand_lost_frames := lf, hand_presence_start := none
             smoothed := none, neutral_y := none, can_trigger := true }
  else { s with hand_lost_frames := lf }

/-- One inbound item: a frame with a hand (at a wall-clock time) or a frame
without one. -/
inductive ZoneInput
  | frame (hl : HandFrame) (t : ℚ)
  | noHand

/-- One tick. -/
def zoneStep (s : ZoneMachine) (i : ZoneInput) : ZoneMachine × List (ZoneEmit × ℚ) :=
  match i with
  | .frame hl t => zoneFrameStep s hl t
  | .noHand => (zoneNoHand s, [])

/-- Run over an input list, collecting emissions in order. -/
def zoneRun (s : ZoneMachine) : List ZoneInput → ZoneMachine × List (ZoneEmit × ℚ)
  | [] => (s, [])
  | i :: rest =>
    let p := zoneStep s i
    let r := zoneRun p.1 rest
    (r.1, p.2 ++ r.2)

/-- A hand frame whose three palm-reference landmarks (0, 5, 17) sit at
`x`, with the thumb tip (4) and middle tip (12) a unit apart so the snap
block stays disarmed.  Used as a concrete counterexample input. -/
def palmAt (x : ℚ) : HandFrame := fun i =>
  if i = (4 : Fin 21) then ⟨0, 0, 0⟩
  else if i = (12 : Fin 21) then ⟨1, 0, 0⟩
  else ⟨x, 1 / 2, 0⟩

end GestureEngine

namespace GestureEngine

/-- The zone block never emits snaps. -/
theorem zonePart_snapFilter (ct : Bool) (le ny sx sy t : ℚ) :
    (zonePart ct le ny sx sy t).2.2.2.filter (fun e => e.1 == ZoneEmit.snap) = [] := by
  unfold zonePart
  split_ifs <;> simp

/-- The snap block either stays silent and keeps `last_snap_time`, or emits
one snap at `t` with its cooldown elapsed and records `t`. -/
theorem snapPart_cases (sp : Bool) (ls d2 t : ℚ) :
    ((snapPart sp ls d2 t).2.2 = [] ∧ (snapPart sp ls d2 t).2.1 = ls) ∨
    ((snapPart sp ls d2 t).2.2 = [(ZoneEmit.snap, t)] ∧
      (snapPart sp ls d2 t).2.1 = t ∧ SNAP_COOLDOWN < t - ls) := by
  unfold snapPart
  split_ifs <;> simp_all

/-- Per-frame snap summary of the combined frame step. -/
theorem zoneFrameStep_snap (s : ZoneMachine) (hl : HandFrame) (t : ℚ) :
    ((zoneFrameStep s hl t).2.filter (fun e => e.1 == ZoneEmit.snap) = [] ∧
      (zoneFrameStep s hl t).1.last_snap_time = s.last_snap_time) ∨
    ((zoneFrameStep s hl t).2.filter (fun e => e.1 == ZoneEmit.snap)
        = [(ZoneEmit.snap, t)] ∧
      (zoneFrameStep s hl t).1.last_snap_time = t ∧
      SNAP_COOLDOWN < t - s.last_snap_time) := by
  simp only [zoneFrameStep, List.filter_append]
  rcases snapPart_cases s.snap_prepared s.last_snap_time (distSq2 (hl 4) (hl 12)) t
    with ⟨h1, h2⟩ | ⟨h1, h2, h3⟩
  · left
    rw [h1, h2, zonePart_snapFilter]
    simp
  · right
    rw [h1, h2, zonePart_snapFilter]
    simp [h3]

theorem zoneNoHand_snap (s : ZoneMachine) :
    (zoneNoHand s).last_snap_time = s.last_snap_time := by
  simp only [zoneNoHand]
  split_ifs <;> rfl

theorem snap_cooldown_pos : (0 : ℚ) < SNAP_COOLDOWN := by norm_num [SNAP_COOLDOWN]

/-- Snap emissions along any run are pairwise separated by more than
`SNAP_COOLDOWN`, and all of them clear the initial `last_snap_time`. -/
theorem zoneRun_snap_sep (l : List ZoneInput) (s : ZoneMachine) :
    List.Pairwise (fun a b => SNAP_COOLDOWN < b.2 - a.2)
      ((zoneRun s l).2.filter (fun e => e.1 == ZoneEmit.snap)) ∧
    ∀ e ∈ (zoneRun s l).2.filter (fun e => e.1 == ZoneEmit.snap),
      SNAP_COOLDOWN < e.2 - s.last_snap_time := by
  induction l generalizing s with
  | nil => simp [zoneRun]
  | cons i rest ih =>
    simp only [zoneRun, List.filter_append]
    cases i with
    | noHand =>
      simp only [zoneStep, List.filter_nil, List.nil_append]
      have h := ih (zoneNoHand s)
      rw [zoneNoHand_snap] at h
      exact h
    | frame hl t =>
      simp only [zoneStep]
      rcases zoneFrameStep_snap s hl t with ⟨h1, h2⟩ | ⟨h1, h2, h3⟩
      · rw [h1]
        simp only [List.nil_append]
        have h := ih (zoneFrameStep s hl t).1
        rw [h2] at h
        exact h
      · rw [h1]
        have h := ih (zoneFrameStep s hl t).1
        rw [h2] at h
        obtain ⟨hp, hb⟩ := h
        have hpos := snap_cooldown_pos
        constructor
        · rw [List.singleton_append, List.pairwise_cons]
          exact ⟨fun e he => by have := hb e he; linarith, hp⟩
        · intro e he
          rw [List.singleton_append, List.mem_cons] at he
          rcases he with rfl | he
          · exact h3
          · have := hb e he
            linarith

end GestureEngine

/-!
## The macro-gesture block and suppression gates of `unified_engine.py`

The macro-gesture detector (lines 386–405) is gated on
`current_state != STATE_AWAITING_COPY` and on its class cooldown
`MACRO_COOLDOWN = 1.5` (line 71), firing one of four named hand-sign records
computed by `get_finger_states` (lines 95–120).  The pose/push block is gated
on `current_state != STATE_AWAITING_COPY` (line 484) and the face block
likewise (line 554).  (The token "macro" cannot be used as a Lean name here,
so the embedding names this the *sign* detector.)
-/

namespace Unified

/-- `get_finger_states` (lines 95–120): thumb is "up" when its tip (4) is
above its IP joint (3); each other finger when its tip is above its PIP
joint (y decreases upward). -/
def get_finger_states (hl : HandFrame) : List Bool :=
  decide ((hl 4).y < (hl 3).y) ::
    (([(8, 6), (12, 10), (16, 14), (20, 18)] : List (Fin 21 × Fin 21)).map fun pr =>
      decide ((hl pr.1).y < (hl pr.2).y))

/-- `MACRO_COOLDOWN = 1.5` (line 71). -/
def SIGN_COOLDOWN : ℚ := 3 / 2

/-- The macro table (lines 391–399): an `if`/`elif` chain over the finger
state vector `[thumb, index, middle, ring, pinky]`. -/
def signOf (fs : List Bool) : Option String :=
  if fs = [false, true, false, false, false] then some "gesture_one"
  else if fs.drop 1 = [true, true, false, false] then some "gesture_peace"
  else if fs.drop 1 = [true, false, false, true] then some "gesture_rock"
  else if fs = [true, true, false, false, false] then some "gesture_l"
  else none

/-- One evaluation of the macro-gesture block (lines 386–405): it runs only
when `current_state != STATE_AWAITING_COPY` and the class cooldown has
elapsed; on a match it records the time and emits the gesture record. -/
def signStep (cs : CPState) (last_sign_time : ℚ) (hl : HandFrame) (t : ℚ) :
    ℚ × Option (String × ℚ) :=
  if cs ≠ CPState.awaitingCopy ∧ SIGN_COOLDOWN < t - last_sign_time then
    match signOf (get_finger_states hl) with
    | some m => (t, some (m, t))
    | none => (last_sign_time, none)
  else (last_sign_time, none)

/-- Run the macro-gesture block over a list of
(copy/paste-state, hand frame, time) ticks. -/
def signRun (lm : ℚ) : List (CPState × HandFrame × ℚ) → ℚ × List (String × ℚ)
  | [] => (lm, [])
  | i :: rest =>
    let p := signStep i.1 lm i.2.1 i.2.2
    let r := signRun p.1 rest
    (r.1, p.2.toList ++ r.2)

/-- The gate of the pose/push block (line 484):
`current_state != STATE_AWAITING_COPY`. -/
def poseGateOpen (cs : CPState) : Bool := decide (cs ≠ CPState.awaitingCopy)

/-- The gate of the face (wink / head-tilt) block (line 554):
`current_state != STATE_AWAITING_COPY`. -/
def faceGateOpen (cs : CPState) : Bool := decide (cs ≠ CPState.awaitingCopy)

theorem signStep_cases (cs : CPState) (lm : ℚ) (hl : HandFrame) (t : ℚ) :
    ((signStep cs lm hl t).2 = none ∧ (signStep cs lm hl t).1 = lm) ∨
    (∃ m, (signStep cs lm hl t).2 = some (m, t) ∧ (signStep cs lm hl t).1 = t ∧
      SIGN_COOLDOWN < t - lm) := by
  unfold signStep
  split_ifs with h
  · rcases hm : signOf (get_finger_states hl) with - | m
    · left; simp [hm]
    · right; exact ⟨m, by simp [hm], by simp [hm], h.2⟩
  · left; simp

theorem sign_cooldown_pos : (0 : ℚ) < SIGN_COOLDOWN := by norm_num [SIGN_COOLDOWN]

/-- Macro-gesture emissions along any run are pairwise separated by more
than `MACRO_COOLDOWN`, all clearing the initial `last_macro_time`. -/
theorem signRun_sep (l : List (CPState × HandFrame × ℚ)) (lm : ℚ) :
    List.Pairwise (fun a b => SIGN_COOLDOWN < b.2 - a.2) (signRun lm l).2 ∧
    ∀ e ∈ (signRun lm l).2, SIGN_COOLDOWN < e.2 - lm := by
  induction l generalizing lm with
  | nil => simp [signRun]
  | cons i rest ih =>
    simp only [signRun]
    rcases signStep_cases i.1 lm i.2.1 i.2.2 with ⟨h1, h2⟩ | ⟨m, h1, h2, h3⟩
    · rw [h1, h2]
      simpa using ih lm
    · rw [h1, h2]
      obtain ⟨hp, hb⟩ := ih i.2.2
      have hpos := sign_cooldown_pos
      constructor
      · simp only [Option.toList_some, List.singleton_append, List.pairwise_cons]
        exact ⟨fun e he => by have := hb e he; linarith, hp⟩
      · intro e he
        simp only [Option.toList_some, List.singleton_append, List.mem_cons] at he
        rcases he with rfl | he
        · exact h3
        · have := hb e he
          linarith

end Unified

/-!
## The push/confirm machine of `push_engine.py`

Embedding of the push state machine (`main`, lines 125–210).  The eye
distance is the 2D distance between pose landmarks 2 and 5 computed by the
source per frame; it is carried here as the observation's feature value so
that the warmup EMA (`neutral_dist = 0.1 * eye_dist + 0.9 * neutral_dist`)
stays exact over `ℚ`.  The `unified_engine.py` push block (lines 519–547)
is the same machine with the shoulder line instead of the nose as the
confirmation reference.
-/

namespace PushEngine

/-- `PUSH_THRESHOLD = 0.85` (line 25). -/
def PUSH_THRESHOLD : ℚ := 17 / 20

/-- `COOLDOWN = 5.0` (line 26). -/
def COOLDOWN : ℚ := 5

/-- `WARMUP_TIME = 2.0` (line 27). -/
def WARMUP_TIME : ℚ := 2

/-- `CONFIRM_TIMEOUT = 10.0` (line 135). -/
def CONFIRM_TIMEOUT : ℚ := 10

/-- Per-frame pose features read by the push machine (lines 175–179):
nose height, both wrist heights, and the eye distance. -/
structure PoseObs where
  eye_dist : ℚ
  nose_y : ℚ
  lw_y : ℚ
  rw_y : ℚ
deriving DecidableEq, Repr

/-- The two values of the push `current_state` (lines 130–133). -/
inductive PushState
  | monitoring
  | awaitingConfirmation
deriving DecidableEq, Repr

/-- The records the push machine prints: the `awaiting_confirmation` status
and the `git_push` action. -/
inductive PushOut
  | awaitingConf
  | gitPush
deriving DecidableEq, Repr

/-- The mutable state of `main` (lines 125–137). -/
structure PushMachine where
  neutral_dist : Option ℚ
  last_push_time : ℚ
  start_time : ℚ
  state : PushState
  confirmation_start_time : ℚ
deriving DecidableEq, Repr

/-- Initial state: no calibration, `last_push_time = 0`, `start_time` the
program start instant, `MONITORING`. -/
def pushStart (t0 : ℚ) : PushMachine :=
  { neutral_dist := none, last_push_time := 0, start_time := t0
    state := .monitoring, confirmation_start_time := 0 }

/-- One pose frame (lines 181–210).  During the warmup window the neutral
eye distance is (EMA-)calibrated.  Afterwards:
in `MONITORING`, a ratio below `PUSH_THRESHOLD` with the push cooldown
elapsed enters `AWAITING_CONFIRMATION` (emitting the status record);
in `AWAITING_CONFIRMATION`, both wrists above the nose fire the git-push
action, record `last_push_time` and return to `MONITORING`, while a
confirmation timeout returns to `MONITORING` silently.  (Python's
`eye_dist / neutral_dist if neutral_dist else 1.0` treats both `None` and
`0.0` as "no calibration", giving ratio 1.) -/
def pushStep (s : PushMachine) (o : PoseObs) (t : ℚ) :
    PushMachine × List (PushOut × ℚ) :=
  if t - s.start_time < WARMUP_TIME then
    ({ s with neutral_dist := some (match s.neutral_dist with
        | none => o.eye_dist
        | some nd => (1 / 10) * o.eye_dist + (9 / 10) * nd) }, [])
  else
    let ratio := match s.neutral_dist with
      | some nd => if nd ≠ 0 then o.eye_dist / nd else 1
      | none => 1
    match s.state with
    | .monitoring =>
      if ratio < PUSH_THRESHOLD ∧ COOLDOWN < t - s.last_push_time then
        ({ s with state := .awaitingConfirmation, confirmation_start_time := t },
          [(.awaitingConf, t)])
      else (s, [])
    | .awaitingConfirmation =>
      if o.lw_y < o.nose_y ∧ o.rw_y < o.nose_y then
        ({ s with last_push_time := t, state := .monitoring }, [(.gitPush, t)])
      else if CONFIRM_TIMEOUT < t - s.confirmation_start_time then
        ({ s with state := .monitoring }, [])
      else (s, [])

/-- Run the push machine over timed pose frames. -/
def pushRun (s : PushMachine) : List (PoseObs × ℚ) → PushMachine × List (PushOut × ℚ)
  | [] => (s, [])
  | i :: rest =>
    let p := pushStep s i.1 i.2
    let r := pushRun p.1 rest
    (r.1, p.2 ++ r.2)

theorem pushStep_cases (s : PushMachine) (o : PoseObs) (t : ℚ) :
    ((pushStep s o t).2.filter (fun e => e.1 == PushOut.gitPush) = [] ∧
      (pushStep s o t).1.last_push_time = s.last_push_time ∧
      ((pushStep s o t).1.state = PushState.awaitingConfirmation →
        s.state = PushState.awaitingConfirmation ∨ COOLDOWN < t - s.last_push_time)) ∨
    ((pushStep s o t).2.filter (fun e => e.1 == PushOut.gitPush) = [(PushOut.gitPush, t)] ∧
      (pushStep s o t).1.last_push_time = t ∧
      (pushStep s o t).1.state = PushState.monitoring ∧
      s.state = PushState.awaitingConfirmation) := by
  rcases s with ⟨nd, lp, st0, st, cst⟩
  cases st with
  | monitoring =>
    left
    simp only [pushStep]
    split_ifs with h1 h2 <;> simp_all
  | awaitingConfirmation =>
    simp only [pushStep]
    split_ifs with h1 h2 h3 <;> simp_all

theorem push_cooldown_pos : (0 : ℚ) < COOLDOWN := by norm_num [COOLDOWN]

/-- Git-push emissions along any run with nondecreasing frame times are
pairwise separated by more than the push cooldown. -/
theorem pushRun_sep (l : List (PoseObs × ℚ)) (s : PushMachine)
    (hmono : List.Pairwise (fun a b => a.2 ≤ b.2) l)
    (hawait : s.state = PushState.awaitingConfirmation →
      ∀ p ∈ l, s.last_push_time + COOLDOWN < p.2) :
    List.Pairwise (fun a b => COOLDOWN < b.2 - a.2)
      ((pushRun s l).2.filter (fun e => e.1 == PushOut.gitPush)) ∧
    ∀ e ∈ (pushRun s l).2.filter (fun e => e.1 == PushOut.gitPush),
      s.last_push_time + COOLDOWN < e.2 := by
  induction l generalizing s with
  | nil => simp [pushRun]
  | cons i rest ih =>
    obtain ⟨hhead, htail⟩ := List.pairwise_cons.1 hmono
    simp only [pushRun, List.filter_append]
    rcases pushStep_cases s i.1 i.2 with ⟨h1, h2, h3⟩ | ⟨h1, h2, h3, h4⟩
    · rw [h1]
      simp only [List.nil_append]
      have haw : (pushStep s i.1 i.2).1.state = PushState.awaitingConfirmation →
          ∀ p ∈ rest, (pushStep s i.1 i.2).1.last_push_time + COOLDOWN < p.2 := by
        intro hst p hp
        rw [h2]
        rcases h3 hst with hold | hnew
        · exact hawait hold p (List.mem_cons_of_mem i hp)
        · have := hhead p hp
          linarith
      have h := ih (pushStep s i.1 i.2).1 htail haw
      rw [h2] at h
      exact h
    · rw [h1]
      have hfirst : s.last_push_time + COOLDOWN < i.2 :=
        hawait h4 i (List.mem_cons_self i rest)
      have haw : (pushStep s i.1 i.2).1.state = PushState.awaitingConfirmation →
          ∀ p ∈ rest, (pushStep s i.1 i.2).1.last_push_time + COOLDOWN < p.2 := by
        intro hst
        rw [h3] at hst
        exact absurd hst (by simp)
      have h := ih (pushStep s i.1 i.2).1 htail haw
      rw [h2] at h
      obtain ⟨hp, hb⟩ := h
      have hpos := push_cooldown_pos
      constructor
      · rw [List.singleton_append, List.pairwise_cons]
        exact ⟨fun e he => by have := hb e he; linarith, hp⟩
      · intro e he
        rw [List.singleton_append, List.mem_cons] at he
        rcases he with rfl | he
        · exact hfirst
        · have := hb e he
          linarith

end PushEngine

/-- Every copy/paste emission happens strictly more than the action cooldown
after `last_action_time`, which it then overwrites; silent steps keep
`last_action_time`. -/
theorem cpStep_cooldown (s : CPMachine) (i : CPInput) :
    ((cpStep s i).2 = none ∧ (cpStep s i).1.last_action_time = s.last_action_time) ∨
    (∃ a t, (cpStep s i).2 = some (a, t) ∧ (cpStep s i).1.last_action_time = t ∧
      action_cooldown < t - s.last_action_time) := by
  cases i with
  | noHand t => exact Or.inl ⟨rfl, rfl⟩
  | selection b =>
    left
    refine ⟨rfl, ?_⟩
    show (cpEventStep s b).last_action_time = s.last_action_time
    unfold cpEventStep
    split_ifs <;> rfl
  | frame obs t =>
    rcases s with ⟨st, ff, of, wf, lat⟩
    cases st with
    | idle =>
      left
      simp only [cpStep, cpFrameStep]
      split_ifs <;> exact ⟨rfl, rfl⟩
    | awaitingCopy =>
      simp only [cpStep, cpFrameStep]
      split_ifs with h1 h2
      · exact Or.inr ⟨.copy, t, rfl, rfl, h1⟩
      · exact Or.inl ⟨rfl, rfl⟩
      · exact Or.inl ⟨rfl, rfl⟩
    | awaitingPaste =>
      simp only [cpStep, cpFrameStep]
      split_ifs with h1 h2
      · exact Or.inr ⟨.paste, t, rfl, rfl, h1⟩
      · exact Or.inl ⟨rfl, rfl⟩
      · exact Or.inl ⟨rfl, rfl⟩

theorem action_cooldown_pos : (0 : ℚ) < action_cooldown := by norm_num [action_cooldown]

/-- Copy/paste emissions (of either class — they share one timer) along any
run are pairwise separated by more than the action cooldown. -/
theorem cpRun_sep (l : List CPInput) (s : CPMachine) :
    List.Pairwise (fun a b => action_cooldown < b.2 - a.2) (cpRun s l).2 ∧
    ∀ e ∈ (cpRun s l).2, action_cooldown < e.2 - s.last_action_time := by
  induction l generalizing s with
  | nil => simp [cpRun]
  | cons i rest ih =>
    simp only [cpRun]
    rcases cpStep_cooldown s i with ⟨h1, h2⟩ | ⟨a, t, h1, h2, h3⟩
    · rw [h1]
      simp only [Option.toList_none, List.nil_append]
      have h := ih (cpStep s i).1
      rw [h2] at h
      exact h
    · rw [h1]
      have h := ih (cpStep s i).1
      rw [h2] at h
      obtain ⟨hp, hb⟩ := h
      have hpos := action_cooldown_pos
      constructor
      · simp only [Option.toList_some, List.singleton_append, List.pairwise_cons]
        exact ⟨fun e he => by have := hb e he; linarith, hp⟩
      · intro e he
        simp only [Option.toList_some, List.singleton_append, List.mem_cons] at he
        rcases he with rfl | he
        · exact h3
        · have := hb e he
          linarith

/-- Counterexample to **C6** as stated.  In the zone-swipe engine a pass
through the neutral zone re-arms `can_trigger`, and the re-armed trigger
consults no cooldown at all: the trace below (palm in the left zone at
`t = 1`, a one-frame flick towards the right that lands the smoothed
x-coordinate in the neutral band at `t = 1.05`, palm back at the far left at
`t = 1.1`) emits two `swipe_left` records 0.1 s apart — closer than both the
configured `COOLDOWN = 0.35` of this action class and the
`AUTO_REPEAT_DELAY = 0.4`. -/
theorem C6_counterexample :
    (GestureEngine.zoneRun GestureEngine.zoneStart
        [.frame (GestureEngine.palmAt (1 / 10)) 1,
          .frame (GestureEngine.palmAt (19 / 20)) (21 / 20),
          .frame (GestureEngine.palmAt 0) (11 / 10)]).2
      = [(.swipeLeft, 1), (.swipeLeft, 11 / 10)] ∧
    (11 / 10 - 1 : ℚ) < GestureEngine.COOLDOWN ∧
    (11 / 10 - 1 : ℚ) < GestureEngine.AUTO_REPEAT_DELAY := by
  refine ⟨?_, by norm_num [GestureEngine.COOLDOWN], by norm_num [GestureEngine.AUTO_REPEAT_DELAY]⟩
  have e1 : ¬((0 : Fin 21) = 4) := by decide
  have e2 : ¬((0 : Fin 21) = 12) := by decide
  have e3 : ¬((5 : Fin 21) = 4) := by decide
  have e4 : ¬((5 : Fin 21) = 12) := by decide
  have e5 : ¬((17 : Fin 21) = 4) := by decide
  have e6 : ¬((17 : Fin 21) = 12) := by decide
  have e7 : ((4 : Fin 21) = 4) := rfl
  have e8 : ¬((12 : Fin 21) = 4) := by decide
  have e9 : ((12 : Fin 21) = 12) := rfl
  norm_num [e1, e2, e3, e4, e5, e6, e7, e8, e9,
    GestureEngine.zoneRun, GestureEngine.zoneStep, GestureEngine.zoneFrameStep,
    GestureEngine.zonePart, GestureEngine.snapPart, GestureEngine.zoneStart,
    GestureEngine.palmAt, GestureEngine.NEUTRAL_LO, GestureEngine.NEUTRAL_HI,
    GestureEngine.LEFT_ZONE, GestureEngine.RIGHT_ZONE, GestureEngine.EMA_ALPHA,
    GestureEngine.SNAP_THRESHOLD_SQ, GestureEngine.SNAP_COOLDOWN,
    GestureEngine.AUTO_REPEAT_DELAY, distSq2]

/-- **C6** (amended).  For the snap, macro-gesture, copy/paste and push
action classes, no two emissions of the same class occur with a time delta
at or below that class's configured cooldown (for copy/paste this holds even
across the two classes, which share one timer; for push, under nondecreasing
frame times).  Zone swipes are exempt: only their auto-repeat path enforces
a delay, and a swipe re-armed through the neutral zone can re-fire sooner
than the declared 0.35 s class cooldown, which the zone logic never
consults. -/
theorem C6_amended :
    (∀ l : List CPInput,
        List.Pairwise (fun a b => action_cooldown < b.2 - a.2) (cpRun cpInit l).2) ∧
    (∀ (lm : ℚ) (l : List (CPState × HandFrame × ℚ)),
        List.Pairwise (fun a b => Unified.SIGN_COOLDOWN < b.2 - a.2)
          (Unified.signRun lm l).2) ∧
    (∀ l : List GestureEngine.ZoneInput,
        List.Pairwise (fun a b => GestureEngine.SNAP_COOLDOWN < b.2 - a.2)
          ((GestureEngine.zoneRun GestureEngine.zoneStart l).2.filter
            (fun e => e.1 == GestureEngine.ZoneEmit.snap))) ∧
    (∀ (t0 : ℚ) (l : List (PushEngine.PoseObs × ℚ)),
        List.Pairwise (fun a b => a.2 ≤ b.2) l →
        List.Pairwise (fun a b => PushEngine.COOLDOWN < b.2 - a.2)
          ((PushEngine.pushRun (PushEngine.pushStart t0) l).2.filter
            (fun e => e.1 == PushEngine.PushOut.gitPush))) := by
  refine ⟨?_, ?_, ?_, ?_⟩
  · intro l
    exact (cpRun_sep l cpInit).1
  · intro lm l
    exact (Unified.signRun_sep l lm).1
  · intro l
    exact (GestureEngine.zoneRun_snap_sep l GestureEngine.zoneStart).1
  · intro t0 l hmono
    exact (PushEngine.pushRun_sep l (PushEngine.pushStart t0) hmono
      (fun h => absurd h (by simp [PushEngine.pushStart]))).1

/-- Witness for the amended C6: the push conjunct applied to a concrete
time-sorted two-frame trace. -/
theorem C6_witness :
    List.Pairwise (fun a b => PushEngine.COOLDOWN < b.2 - a.2)
      ((PushEngine.pushRun (PushEngine.pushStart 0)
          [(⟨1, 0, 0, 0⟩, 3), (⟨1, 0, 0, 0⟩, 4)]).2.filter
        (fun e => e.1 == PushEngine.PushOut.gitPush)) :=
  C6_amended.2.2.2 0 [(⟨1, 0, 0, 0⟩, 3), (⟨1, 0, 0, 0⟩, 4)]
    (by norm_num [List.pairwise_cons])

/-- **C5** (confirmed).  The push state machine after warmup:
(i) in `MONITORING`, an eye-distance ratio below `PUSH_THRESHOLD = 0.85`
with the push cooldown elapsed moves to `AWAITING_CONFIRMATION` (status
record only, no action);
(ii) in `AWAITING_CONFIRMATION`, both wrists above the nose line within the
confirmation window fire exactly one git-push action, return to
`MONITORING` and set the lockout timestamp `last_push_time` to the current
instant;
(iii) with the lockout timestamp set, a `MONITORING` frame before the
cooldown has elapsed changes nothing and emits nothing, whatever the ratio;
(iv) if no confirmation arrives and the timeout passes, the state reverts
to `MONITORING` with zero emissions. -/
theorem C5_push_flow :
    (∀ (s : PushEngine.PushMachine) (o : PushEngine.PoseObs) (t nd : ℚ),
        s.state = .monitoring →
        ¬(t - s.start_time < PushEngine.WARMUP_TIME) →
        s.neutral_dist = some nd → nd ≠ 0 →
        o.eye_dist / nd < PushEngine.PUSH_THRESHOLD →
        PushEngine.COOLDOWN < t - s.last_push_time →
        PushEngine.pushStep s o t =
          ({ s with state := .awaitingConfirmation, confirmation_start_time := t },
            [(.awaitingConf, t)])) ∧
    (∀ (s : PushEngine.PushMachine) (o : PushEngine.PoseObs) (t : ℚ),
        s.state = .awaitingConfirmation →
        ¬(t - s.start_time < PushEngine.WARMUP_TIME) →
        o.lw_y < o.nose_y → o.rw_y < o.nose_y →
        t - s.confirmation_start_time ≤ PushEngine.CONFIRM_TIMEOUT →
        PushEngine.pushStep s o t =
          ({ s with last_push_time := t, state := .monitoring }, [(.gitPush, t)])) ∧
    (∀ (s : PushEngine.PushMachine) (o : PushEngine.PoseObs) (t : ℚ),
        s.state = .monitoring →
        ¬(t - s.start_time < PushEngine.WARMUP_TIME) →
        ¬(PushEngine.COOLDOWN < t - s.last_push_time) →
        PushEngine.pushStep s o t = (s, [])) ∧
    (∀ (s : PushEngine.PushMachine) (o : PushEngine.PoseObs) (t : ℚ),
        s.state = .awaitingConfirmation →
        ¬(t - s.start_time < PushEngine.WARMUP_TIME) →
        ¬(o.lw_y < o.nose_y ∧ o.rw_y < o.nose_y) →
        PushEngine.CONFIRM_TIMEOUT < t - s.confirmation_start_time →
        PushEngine.pushStep s o t = ({ s with state := .monitoring }, [])) := by
  refine ⟨?_, ?_, ?_, ?_⟩
  · intro s o t nd hst hw hnd hnd0 hratio hcool
    rcases s with ⟨nd', lp, st0, st, cst⟩
    simp only at hst hnd hw hratio hcool
    subst hst
    subst hnd
    simp [PushEngine.pushStep, hw, hnd0, hratio, hcool]
  · intro s o t hst hw hl hr hwin
    rcases s with ⟨nd', lp, st0, st, cst⟩
    simp only at hst hw
    subst hst
    simp [PushEngine.pushStep, hw, hl, hr]
  · intro s o t hst hw hcool
    rcases s with ⟨nd', lp, st0, st, cst⟩
    simp only at hst hw hcool
    subst hst
    simp [PushEngine.pushStep, hw, hcool]
  · intro s o t hst hw hhands htime
    rcases s with ⟨nd', lp, st0, st, cst⟩
    simp only at hst hw hhands htime
    subst hst
    simp [PushEngine.pushStep, hw, htime]
    intro hl
    exact le_of_not_lt fun hr => hhands ⟨hl, hr⟩

/-- Witness for C5: the four conjuncts at the concrete numbers of the
specification — calibrated neutral distance 1, current eye distance 0.8
(ratio 0.80 < 0.85), wrists at height 0 above the nose at height 1. -/
theorem C5_witness :
    PushEngine.pushStep
        { neutral_dist := some 1, last_push_time := 0, start_time := 0
          state := .monitoring, confirmation_start_time := 0 }
        ⟨4 / 5, 1, 2, 2⟩ 6
      = ({ neutral_dist := some 1, last_push_time := 0, start_time := 0
           state := .awaitingConfirmation, confirmation_start_time := 6 },
          [(.awaitingConf, 6)]) ∧
    PushEngine.pushStep
        { neutral_dist := some 1, last_push_time := 0, start_time := 0
          state := .awaitingConfirmation, confirmation_start_time := 6 }
        ⟨4 / 5, 1, 0, 0⟩ 7
      = ({ neutral_dist := some 1, last_push_time := 7, start_time := 0
           state := .monitoring, confirmation_start_time := 6 },
          [(.gitPush, 7)]) ∧
    PushEngine.pushStep
        { neutral_dist := some 1, last_push_time := 7, start_time := 0
          state := .monitoring, confirmation_start_time := 6 }
        ⟨4 / 5, 1, 2, 2⟩ 8
      = ({ neutral_dist := some 1, last_push_time := 7, start_time := 0
           state := .monitoring, confirmation_start_time := 6 }, []) ∧
    PushEngine.pushStep
        { neutral_dist := some 1, last_push_time := 0, start_time := 0
          state := .awaitingConfirmation, confirmation_start_time := 6 }
        ⟨4 / 5, 1, 2, 2⟩ 17
      = ({ neutral_dist := some 1, last_push_time := 0, start_time := 0
           state := .monitoring, confirmation_start_time := 6 }, []) := by
  refine ⟨?_, ?_, ?_, ?_⟩
  · exact C5_push_flow.1 _ ⟨4 / 5, 1, 2, 2⟩ 6 1 rfl
      (by norm_num [PushEngine.WARMUP_TIME]) rfl (by norm_num)
      (by norm_num [PushEngine.PUSH_THRESHOLD]) (by norm_num [PushEngine.COOLDOWN])
  · exact C5_push_flow.2.1 _ ⟨4 / 5, 1, 0, 0⟩ 7 rfl
      (by norm_num [PushEngine.WARMUP_TIME]) (by norm_num) (by norm_num)
      (by norm_num [PushEngine.CONFIRM_TIMEOUT])
  · exact C5_push_flow.2.2.1 _ ⟨4 / 5, 1, 2, 2⟩ 8 rfl
      (by norm_num [PushEngine.WARMUP_TIME]) (by norm_num [PushEngine.COOLDOWN])
  · exact C5_push_flow.2.2.2 _ ⟨4 / 5, 1, 2, 2⟩ 17 rfl
      (by norm_num [PushEngine.WARMUP_TIME]) (by norm_num)
      (by norm_num [PushEngine.CONFIRM_TIMEOUT])

/-- A hand frame whose finger-state vector is
`[thumb down, index up, middle down, ring down, pinky down]` — the
`gesture_one` macro shape. -/
def oneFingerFrame : HandFrame := fun i =>
  if i = (3 : Fin 21) ∨ i = 8 ∨ i = 10 ∨ i = 14 ∨ i = 18 then ⟨0, 0, 0⟩
  else ⟨0, 1, 0⟩

theorem oneFinger_states :
    Unified.get_finger_states oneFingerFrame = [false, true, false, false, false] := by
  decide

/-- Counterexample to **C8** as stated: the suppression gates of
`unified_engine.py` test only `AWAITING_COPY`, not the paste-primed state.
In `AWAITING_PASTE` the macro detector runs and emits (here `gesture_one`
with cooldown clear at `t = 10`), and the pose/push and face/tilt gates are
open. -/
theorem C8_counterexample :
    Unified.signStep .awaitingPaste 0 oneFingerFrame 10
        = (10, some ("gesture_one", 10)) ∧
    Unified.poseGateOpen .awaitingPaste = true ∧
    Unified.faceGateOpen .awaitingPaste = true := by
  refine ⟨?_, rfl, rfl⟩
  norm_num [Unified.signStep, Unified.signOf, oneFinger_states, Unified.SIGN_COOLDOWN]
  decide

/-- **C8** (amended).  Only while the copy/paste machine is in
`AWAITING_COPY` are the macro, pose/push and face/tilt blocks suppressed:
the macro block emits nothing and leaves its cooldown timer untouched, and
the pose and face gates are closed.  In `AWAITING_PASTE` (paste-primed) all
three run normally. -/
theorem C8_amended :
    (∀ (lm : ℚ) (hl : HandFrame) (t : ℚ),
        Unified.signStep .awaitingCopy lm hl t = (lm, none)) ∧
    Unified.poseGateOpen .awaitingCopy = false ∧
    Unified.faceGateOpen .awaitingCopy = false := by
  refine ⟨?_, rfl, rfl⟩
  intro lm hl t
  simp [Unified.signStep]

/-!
## The posture machine of `posture_engine.py`

Embedding of the slouch-detection loop of `posture_engine.py`
(`main`, lines 45–95).  The emission check
`if new_state != current_state: … print({"posture": …})` sits, in the
source, inside the *non-slouching* branch (lines 87–95), so the embedding
places it there too.
-/

namespace PostureEngine

/-- The two posture states. -/
inductive Posture
  | upright
  | slouch
deriving DecidableEq, Repr

/-- Per-frame pose heights read by the machine (lines 67–68): the two eye
landmarks (2, 5) and the two shoulder landmarks (11, 12). -/
structure PostureObs where
  e2y : ℚ
  e5y : ℚ
  s11y : ℚ
  s12y : ℚ
deriving DecidableEq, Repr

/-- The mutable state of `main` (lines 47–50). -/
structure PostureMachine where
  neutral_neck_dist : Option ℚ
  neutral_shoulder_y : Option ℚ
  current_state : Posture
deriving DecidableEq, Repr

/-- Initial state: no calibration, `current_state = "upright"`. -/
def postureStart : PostureMachine :=
  { neutral_neck_dist := none, neutral_shoulder_y := none
    current_state := .upright }

/-- The per-frame slouch classification (lines 67–81): neck distance
`|shoulder_mid_y − eye_mid_y|` against its baseline (ratio < 0.85) or an
absolute shoulder drop (> 0.05).  Python's
`neck_dist / neutral_neck_dist if neutral_neck_dist else 1.0` treats a zero
baseline as "no calibration" (ratio 1), and likewise for the shoulder
baseline in the drop. -/
def postureComputed (s : PostureMachine) (o : PostureObs) : Posture :=
  let eye_y := (o.e2y + o.e5y) / 2
  let shoulder_y := (o.s11y + o.s12y) / 2
  let neck_dist := |shoulder_y - eye_y|
  let nnd := s.neutral_neck_dist.getD neck_dist
  let nsy := s.neutral_shoulder_y.getD shoulder_y
  let neck_ratio := if nnd ≠ 0 then neck_dist / nnd else 1
  let shoulder_drop := if nsy ≠ 0 then shoulder_y - nsy else 0
  if neck_ratio < 17 / 20 ∨ 1 / 20 < shoulder_drop then .slouch else .upright

/-- One frame of `main` (lines 64–95): establish the baselines on the first
reading, classify, and — exactly as in the source, where the
`new_state != current_state` check is nested inside the non-slouching
branch — record and emit a posture change only when the computed state is
`upright`. -/
def postureStep (s : PostureMachine) (o : PostureObs) :
    PostureMachine × List Posture :=
  let eye_y := (o.e2y + o.e5y) / 2
  let shoulder_y := (o.s11y + o.s12y) / 2
  let neck_dist := |shoulder_y - eye_y|
  let nnd := s.neutral_neck_dist.getD neck_dist
  let nsy := s.neutral_shoulder_y.getD shoulder_y
  let base : PostureMachine :=
    { neutral_neck_dist := some nnd, neutral_shoulder_y := some nsy
      current_state := s.current_state }
  match postureComputed s o with
  | .slouch => (base, [])
  | .upright =>
    if Posture.upright ≠ s.current_state then
      ({ base with current_state := .upright }, [.upright])
    else (base, [])

/-- Run the machine over a list of pose frames, collecting the emitted
posture records. -/
def postureRun (s : PostureMachine) : List PostureObs → PostureMachine × List Posture
  | [] => (s, [])
  | o :: rest =>
    let p := postureStep s o
    let r := postureRun p.1 rest
    (r.1, p.2 ++ r.2)

theorem postureStep_upright (s : PostureMachine) (o : PostureObs)
    (h : s.current_state = .upright) :
    (postureStep s o).1.current_state = .upright ∧ (postureStep s o).2 = [] := by
  simp only [postureStep]
  rcases postureComputed s o with - | -
  · simp [h]
  · simp [h]

theorem postureRun_silent (l : List PostureObs) (s : PostureMachine)
    (h : s.current_state = .upright) :
    (postureRun s l).2 = [] := by
  induction l generalizing s with
  | nil => rfl
  | cons o rest ih =>
    obtain ⟨h1, h2⟩ := postureStep_upright s o h
    simp only [postureRun, h2, List.nil_append]
    exact ih _ h1

/-- A neutral calibration frame: eyes at height 0, shoulders at height 1
(neck distance 1). -/
def uprightObs : PostureObs := ⟨0, 0, 1, 1⟩

/-- A heavily slouched frame: eyes at height 1/2, shoulders at height 1
(neck distance 1/2, ratio 0.5 < 0.85 against the baseline 1). -/
def slouchObs : PostureObs := ⟨1 / 2, 1 / 2, 1, 1⟩

/-- **C9** (code bug in `posture_engine.py`).  The claim — every change of
the computed posture state is reported with exactly one posture record, in
both directions — fails on `posture_engine.py`: the `new_state !=
current_state` check is nested inside the non-slouching branch, and
`current_state` (initially `"upright"`) is only ever assigned `"upright"`,
so the program never emits a posture record at all.  Concretely, after a
neutral calibration frame the computed posture changes from upright to
slouch, yet the run emits nothing; and in general every run from the start
state emits the empty record list.  (The evolved copy of this logic in
`unified_engine.py`, lines 501–517, hoists the check out of the branch and
does emit one record per change — the claim describes that intent.) -/
theorem C9_posture_never_emitted :
    (postureComputed postureStart uprightObs = .upright ∧
      postureComputed (postureStep postureStart uprightObs).1 slouchObs = .slouch ∧
      (postureRun postureStart [uprightObs, slouchObs]).2 = []) ∧
    ∀ l : List PostureObs, (postureRun postureStart l).2 = [] := by
  refine ⟨⟨?_, ?_, ?_⟩, fun l => postureRun_silent l postureStart rfl⟩
  · norm_num [postureComputed, postureStart, uprightObs]
  · have habs : |(1 : ℚ) / 2| = 1 / 2 := by
      rw [abs_of_nonneg]
      norm_num
    norm_num [postureComputed, postureStep, postureStart, uprightObs, slouchObs, habs]
  · exact postureRun_silent _ _ rfl
